import Mathlib

/-!
# amc-studybot: shallow embedding of `src/index.js`

The repository is a small Express backend that exists in three
near-duplicate revisions inside `src/index.js` (separated by document
markers):

* variant 1 (lines 1-171): its `/ask` handler (lines 61-148) is followed by
  a stray pasted catch-block fragment at top level (lines 152-165) that
  leaves the segment with unmatched closing braces - the segment is not
  parseable JavaScript (a SyntaxError at load), so this revision can never
  serve a request. Moreover, inside the handler itself line 71 calls
  `pdfParse`, which is not defined anywhere in the segment (the import at
  line 5 binds `pdf`): even taken in isolation, every with-file request
  throws a ReferenceError before the extractor is reached, and everything
  below line 71 - the empty-text check, the truncation to 8000, the
  interpolating prompt template, the fallback answer and the safety
  classifier of the catch block - is dead code.
* variant 2 (lines 172-290): `/ask` validates both file and question, has
  no empty-text check. In its prompt template (lines 253-264) the `$` at
  the end of line 258 is separated from `{pdfText}` (line 259) by a
  newline, so it is NOT an interpolation: the prompt carries those
  characters literally and embeds no document text, whereas `${question}`
  (line 263) is contiguous and is a real interpolation. One generic catch
  message (line 282).
* variant 3 (lines 291-430): like variant 2; it additionally computes
  `truncatedText = fullPdfText.substring(0, 15000)` (line 373), but the
  template (lines 381-392) splits `$` and `{truncatedText}` the same way
  (lines 386-387), so the computed truncation is dead and the prompt again
  embeds no document text; its generic catch message (line 421) mentions
  the server logs.

All three revisions share the `/health` (lines 29-34) and `/chat`
(lines 38-56) handlers verbatim; `/chat` interpolates `${question}`
contiguously (line 47), a real interpolation.

The PDF-text extractor (`pdf-parse`) and the remote generation service
(`axios.post` to the Gemini endpoint) are external collaborators; handlers
are modelled as functions of those collaborators, and return, next to the
HTTP response, the list of collaborator calls they made, so that "the
remote service is never called" is a statement about the result. The
variant-1 handler is modelled in isolation as a function of the request
alone, since it can consult no collaborator; that a SyntaxError prevents
the segment from even loading is a fact about JavaScript parsing recorded
here in prose, strictly stronger than what the handler-level theorems
state.

Extracted document text is modelled as a sequence of characters
(`Text := List Char`); the JavaScript `substring(0, n)` is `List.take n`
and `.length` is `List.length`.
-/

/-- Extracted document text / raw uploaded bytes, as a character sequence. -/
abbrev Text := List Char

/-- JavaScript string falsiness for an optional request field: `!x` is true
exactly when the field is absent (`undefined`) or the empty string. -/
def jsFalsy : Option String → Bool
  | none => true
  | some s => s = ""

/-- The whitespace characters recognised by the JavaScript `String.trim`
(the common ASCII subset: space, tab, line feed, carriage return, vertical
tab, form feed). -/
def isJsWhitespace (c : Char) : Bool :=
  c = ' ' || c = '\t' || c = '\n' || c = '\r' || c = '\x0b' || c = '\x0c'

/-- The extracted text is empty or consists only of whitespace. This is the
predicate of the check at line 74 of variant 1 (dead code there); the
claims use it to describe document scenarios. -/
def isWsOnly (t : Text) : Bool :=
  t.all isJsWhitespace

/-- Template interpolation of a possibly-absent field: JavaScript renders
`undefined` as the string "undefined" inside a template literal. -/
def interpOpt : Option String → String
  | none => "undefined"
  | some s => s

/-- One generated candidate; `text` is the text of the first part when the
response carries `content.parts[0].text`, and `none` when that path is
missing from the candidate. -/
structure Candidate where
  text : Option String
deriving DecidableEq, Repr

/-- The data object of a 2xx generation-service response
(`response.data`): its `candidates` array ([] also models an absent or
empty array, which variants 2 and 3 test with
`!response.data.candidates || response.data.candidates.length === 0`). -/
structure GenData where
  candidates : List Candidate
deriving DecidableEq, Repr

/-- Outcome of one `axios.post` to the generation service, as the handlers
observe it: a 2xx response with data, a non-2xx response (`error.response`
present, recording whether `data.promptFeedback.safetyRatings` is present
and `data.error.message` when `data.error` is present), a request that got
no response (`error.request` present), or a locally thrown error with its
message (anything thrown inside the try block with neither `.response` nor
`.request`, e.g. a failure while setting up the request). -/
inductive UpstreamOutcome where
  | ok (data : GenData)
  | httpError (hasSafetyRatings : Bool) (apiErrorMessage : Option String)
  | noResponse
  | setupError (msg : String)
deriving DecidableEq, Repr

/-- The generation-service collaborator: prompt string to outcome. -/
abbrev Upstream := String → UpstreamOutcome

/-- The pdf-parse collaborator: document bytes to extracted text, or the
message of the error it rejects with. -/
abbrev Extractor := Text → Except String Text

/-- A JSON response body: `{answer}` on success, `{error}` on failure. -/
inductive RespBody where
  | answer (text : String)
  | error (msg : String)
deriving DecidableEq, Repr

/-- An HTTP response: status code and JSON body. -/
structure HttpResponse where
  status : Nat
  body : RespBody
deriving DecidableEq, Repr

/-- A collaborator call made while handling one request: a pdf-parse
extraction, or a generation-service request carrying its prompt. -/
inductive Call where
  | extract
  | upstream (prompt : String)
deriving DecidableEq, Repr

/-- Whether the generation service was called at all. -/
def calledUpstream (calls : List Call) : Bool :=
  calls.any fun c => match c with
    | .upstream _ => true
    | .extract => false

/-- An `/ask` request: the optional uploaded file (`req.file`, its bytes)
and the optional `question` form field (`req.body.question`). -/
structure AskRequest where
  file : Option Text
  question : Option String

/-! ## /health (src/index.js lines 29-34, identical in all variants)

The body is returned as a field list `[(key, value), ...]` so that the
set of JSON fields present is part of the model. -/

/-- The `/health` handler: status code and JSON body fields. The key is
absent (`none`) or the value of the `GEMINI_API_KEY` environment variable;
`!GEMINI_API_KEY` is true for an absent key and for the empty string. -/
def healthHandler (apiKey : Option String) : Nat × List (String × String) :=
  if jsFalsy apiKey then
    (500, [("status", "error"), ("message", "GEMINI_API_KEY is not set")])
  else
    (200, [("status", "ok"), ("message", "Server is running and API key is loaded")])

/-! ## /chat (src/index.js lines 38-56, identical in all variants) -/

/-- The `/chat` prompt (lines 46-47): the tutoring template wrapping the
question; `${question}` is contiguous there, a real interpolation. -/
def chatPrompt (question : String) : String :=
  "You are a helpful medical exam tutor. Answer the following question:\n" ++ question

/-- The `/chat` handler. Validation is `if (!question)`; on a 2xx upstream
response the unguarded access `candidates[0].content.parts[0].text` throws
when the path is missing, landing in the catch block, which answers 500
with one fixed message for every caught error. -/
def chatHandler (upstream : Upstream) (question : Option String) :
    HttpResponse × List Call :=
  if jsFalsy question then
    (⟨400, .error "Question is required"⟩, [])
  else
    let prompt := chatPrompt (interpOpt question)
    match upstream prompt with
    | .ok data =>
      match data.candidates.head? with
      | some c =>
        match c.text with
        | some t => (⟨200, .answer t⟩, [.upstream prompt])
        | none => (⟨500, .error "Failed to get response from Gemini"⟩, [.upstream prompt])
      | none => (⟨500, .error "Failed to get response from Gemini"⟩, [.upstream prompt])
    | _ => (⟨500, .error "Failed to get response from Gemini"⟩, [.upstream prompt])

/-! ## /ask, variant 1 (src/index.js lines 61-148, inside segment lines 1-171)

The segment is not loadable (stray block, lines 152-165, unmatched
braces); the handler below is its transcription in isolation. -/

/-- What the catch block of variant 1 (lines 122-147) distinguishes about a
thrown error: an upstream error response (with or without safety ratings
and an error object), a request that got no response, or any other thrown
error with its message. -/
inductive ThrownV1 where
  | response (hasSafetyRatings : Bool) (apiErrorMessage : Option String)
  | request
  | other (msg : String)

/-- The catch block of variant 1 (lines 122-147): safety ratings on an
upstream error response take precedence, then the upstream error detail is
relayed, then the no-response case, then any other error has its message
relayed in a Details suffix; an upstream error response with neither
safety ratings nor an error object falls through to the final generic
message (line 146). Only the `.other` branch is reachable from the
handler, and only with the fixed ReferenceError message - the try block
throws at line 71 before any axios call could produce the other shapes. -/
def askV1Catch : ThrownV1 → HttpResponse
  | .response true _ =>
    ⟨500, .error "Content violated safety guidelines or was blocked by Gemini."⟩
  | .response false (some m) => ⟨500, .error ("Gemini API Error: " ++ m)⟩
  | .response false none =>
    ⟨500, .error "Failed to process the PDF or get an answer. Check server logs for details."⟩
  | .request => ⟨500, .error "No response from Gemini API. Check network or API URL."⟩
  | .other m => ⟨500, .error ("Failed to process the PDF or get an answer. Details: " ++ m)⟩

/-- The `/ask` handler of variant 1 (lines 61-148), in isolation. It
validates only the file (line 64); its try block then calls `pdfParse`
(line 71), an undefined identifier (the import at line 5 binds `pdf`), so
every with-file request throws a ReferenceError at once: the extractor and
the generation service are never invoked - hence no collaborator
parameters - and the catch block reports the fixed ReferenceError message
through its Details branch (line 144). Lines 74-120 (empty-text check,
truncation, prompt, upstream call, fallback answer) are dead code. The
enclosing segment is anyway not loadable JavaScript. -/
def askV1 (req : AskRequest) : HttpResponse × List Call :=
  match req.file with
  | none => (⟨400, .error "No PDF file uploaded."⟩, [])
  | some _ => (askV1Catch (.other "pdfParse is not defined"), [])

/-! ## /ask, variant 2 (src/index.js lines 231-284) -/

/-- The prompt of the `/ask` of variant 2 (lines 253-264). The `$` ending
line 258 is separated by a newline from `\x7bpdfText\x7d` (line 259), so
in the template literal they are plain text, not an interpolation: the
prompt contains those characters literally and embeds none of the
extracted document text. The only interpolation is `${question}`
(line 263, where the `$` and the brace are adjacent). -/
def promptV2 (question : String) : String :=
  "\n      You are a world-class medical examination expert. Your task is to analyze the provided text from an official exam specification document and answer the user\x27s question based *only* on the information within that document. Do not use outside knowledge.\n\n      Here is the content from the PDF:\n      ---\n      $\n\x7bpdfText\x7d\n      ---\n\n      Based on the document above, please answer this question: \"\n" ++ question ++ "\"\n    "

/-- The `/ask` handler of variant 2 (lines 231-284). It validates file and
question (`!req.body.question` also rejects the empty string); there is no
empty-text check; the extracted text influences nothing past the
extraction call itself, because the prompt (see `promptV2`) embeds no
document text; a response without candidates, a missing first-candidate
text, and every caught error all produce the one generic 500 message of
its catch block (line 282). -/
def askV2 (extract : Extractor) (upstream : Upstream) (req : AskRequest) :
    HttpResponse × List Call :=
  match req.file with
  | none => (⟨400, .error "No PDF file uploaded."⟩, [])
  | some buf =>
    if jsFalsy req.question then
      (⟨400, .error "No question was provided."⟩, [])
    else
      match extract buf with
      | .error _ =>
        (⟨500, .error "Failed to process the PDF or get an answer."⟩, [.extract])
      | .ok _pdfText =>
        let prompt := promptV2 (interpOpt req.question)
        match upstream prompt with
        | .ok data =>
          match data.candidates.head? with
          | some c =>
            match c.text with
            | some t => (⟨200, .answer t⟩, [.extract, .upstream prompt])
            | none =>
              (⟨500, .error "Failed to process the PDF or get an answer."⟩,
               [.extract, .upstream prompt])
          | none =>
            (⟨500, .error "Failed to process the PDF or get an answer."⟩,
             [.extract, .upstream prompt])
        | _ =>
          (⟨500, .error "Failed to process the PDF or get an answer."⟩,
           [.extract, .upstream prompt])

/-! ## /ask, variant 3 (src/index.js lines 349-423) -/

/-- `MAX_TEXT_LENGTH` of variant 3 (line 372). -/
def MAX_TEXT_LENGTH_V3 : Nat := 15000

/-- The value of `truncatedText` in variant 3 (line 373):
`fullPdfText.substring(0, 15000)`. It is computed on every request but
never interpolated into the prompt - the template splits `$` and the
placeholder across lines 386-387 - so it is a dead computation. -/
def truncatedTextV3 (t : Text) : Text := t.take MAX_TEXT_LENGTH_V3

/-- The prompt of the `/ask` of variant 3 (lines 381-392): identical to
variant 2 except the literal placeholder reads `\x7btruncatedText\x7d`
(line 387); as in variant 2, the split `$` (line 386) makes it plain text,
so no document text - truncated or not - enters the prompt, and only
`${question}` (line 391) is interpolated. -/
def promptV3 (question : String) : String :=
  "\n      You are a world-class medical examination expert. Your task is to analyze the provided text from an official exam specification document and answer the user\x27s question based *only* on the information within that document. Do not use outside knowledge.\n\n      Here is the content from the PDF:\n      ---\n      $\n\x7btruncatedText\x7d\n      ---\n\n      Based on the document above, please answer this question: \"\n" ++ question ++ "\"\n    "

/-- The `/ask` handler of variant 3 (lines 349-423): as variant 2, but it
computes the dead `truncatedText` (line 373) and its generic catch message
(line 421) mentions the server logs. -/
def askV3 (extract : Extractor) (upstream : Upstream) (req : AskRequest) :
    HttpResponse × List Call :=
  match req.file with
  | none => (⟨400, .error "No PDF file uploaded."⟩, [])
  | some buf =>
    if jsFalsy req.question then
      (⟨400, .error "No question was provided."⟩, [])
    else
      match extract buf with
      | .error _ =>
        (⟨500, .error "Failed to process the PDF or get an answer. Check server logs for details."⟩,
         [.extract])
      | .ok fullPdfText =>
        let _truncatedText := truncatedTextV3 fullPdfText
        let prompt := promptV3 (interpOpt req.question)
        match upstream prompt with
        | .ok data =>
          match data.candidates.head? with
          | some c =>
            match c.text with
            | some t => (⟨200, .answer t⟩, [.extract, .upstream prompt])
            | none =>
              (⟨500,
                .error "Failed to process the PDF or get an answer. Check server logs for details."⟩,
               [.extract, .upstream prompt])
          | none =>
            (⟨500,
              .error "Failed to process the PDF or get an answer. Check server logs for details."⟩,
             [.extract, .upstream prompt])
        | _ =>
          (⟨500,
            .error "Failed to process the PDF or get an answer. Check server logs for details."⟩,
           [.extract, .upstream prompt])

/-! ## axios request configurations

The literal config objects passed to `axios.post`: `/chat` (line 48) and
the `/ask` calls of variants 2 and 3 (lines 269 and 398) send only a
Content-Type header; the `/ask` call of variant 1 (lines 105-110) additionally
sends the key in an `x-goog-api-key` header. None of the calls sets the
axios `timeout` option, so it is `none` (the axios default, no timeout). -/

/-- An axios request configuration, restricted to the options the source
uses plus the `timeout` option (milliseconds) it never sets. -/
structure AxiosConfig where
  headers : List (String × String)
  timeout : Option Nat
deriving DecidableEq, Repr

/-- Config of the `/chat` call (line 48). -/
def chatAxiosConfig : AxiosConfig :=
  ⟨[("Content-Type", "application/json")], none⟩

/-- Config of the `/ask` call of variant 1 (lines 105-110), given the key. -/
def askV1AxiosConfig (apiKey : String) : AxiosConfig :=
  ⟨[("Content-Type", "application/json"), ("x-goog-api-key", apiKey)], none⟩

/-- Config of the `/ask` calls of variants 2 and 3 (lines 269 and 398). -/
def askV23AxiosConfig : AxiosConfig :=
  ⟨[("Content-Type", "application/json")], none⟩

/-- The claim that a config carries an explicit bounded timeout of roughly
20-30 seconds (in milliseconds). -/
def hasBoundedTimeout (c : AxiosConfig) : Prop :=
  ∃ t, c.timeout = some t ∧ 20000 ≤ t ∧ t ≤ 30000

/-! ## Sample collaborators for concrete evaluations -/

/-- An extractor returning the fixed nonempty text "text". -/
def sampleExtractor : Extractor := fun _ => .ok "text".data

/-- An extractor returning empty text. -/
def emptyExtractor : Extractor := fun _ => .ok []

/-- An upstream that answers every prompt with one candidate "ans". -/
def sampleUpstream : Upstream := fun _ => .ok ⟨[⟨some "ans"⟩]⟩

/-- An upstream whose 2xx response has no candidates. -/
def noCandidatesUpstream : Upstream := fun _ => .ok ⟨[]⟩

/-- An upstream whose call fails with a non-2xx response carrying safety
ratings (`promptFeedback.safetyRatings` present, no `error` object). -/
def blockedUpstream : Upstream := fun _ => .httpError true none

/-- An upstream whose call gets no response at all (`error.request`). -/
def downUpstream : Upstream := fun _ => .noResponse

/-- C1 (amended): no document text reaches any prompt. In the runnable
revisions (variants 2 and 3) the template splits `$` from its placeholder
across lines, so the placeholder is literal text and the composed prompt
depends only on the question: two extractions yielding different texts
produce identical service calls, whose prompts carry the fixed template
and the question. Variant 3 still computes `substring(0, 15000)` of the
extracted text - a take-15000, idempotent - but the result is dead.
(Variant 1, the one template that would interpolate a truncated document
text, is not loadable JavaScript.) -/
theorem c1_truncation (e₁ e₂ : Extractor) (u : Upstream) (buf t₁ t₂ : Text) (q : String)
    (hq : q ≠ "") (he₁ : e₁ buf = Except.ok t₁) (he₂ : e₂ buf = Except.ok t₂) :
    (askV2 e₁ u ⟨some buf, some q⟩).2 = [Call.extract, Call.upstream (promptV2 q)] ∧
    (askV3 e₁ u ⟨some buf, some q⟩).2 = [Call.extract, Call.upstream (promptV3 q)] ∧
    (askV2 e₁ u ⟨some buf, some q⟩).2 = (askV2 e₂ u ⟨some buf, some q⟩).2 ∧
    (askV3 e₁ u ⟨some buf, some q⟩).2 = (askV3 e₂ u ⟨some buf, some q⟩).2 ∧
    truncatedTextV3 t₁ = t₁.take 15000 ∧
    truncatedTextV3 (truncatedTextV3 t₁) = truncatedTextV3 t₁ := by
  have hf : jsFalsy (some q) = false := by simp [jsFalsy, hq]
  have hv2 : ∀ (e : Extractor) (t : Text), e buf = Except.ok t →
      (askV2 e u ⟨some buf, some q⟩).2 = [Call.extract, Call.upstream (promptV2 q)] := by
    intro e t he
    unfold askV2
    dsimp only
    rw [hf]
    simp only [Bool.false_eq_true, if_false]
    rw [he]
    dsimp only
    cases hu : u (promptV2 (interpOpt (some q))) with
    | ok d =>
      dsimp only
      cases hc : d.candidates.head? with
      | some c =>
        dsimp only
        cases ht : c.text with
        | some t2 => rfl
        | none => rfl
      | none => rfl
    | httpError s m => rfl
    | noResponse => rfl
    | setupError m => rfl
  have hv3 : ∀ (e : Extractor) (t : Text), e buf = Except.ok t →
      (askV3 e u ⟨some buf, some q⟩).2 = [Call.extract, Call.upstream (promptV3 q)] := by
    intro e t he
    unfold askV3
    dsimp only
    rw [hf]
    simp only [Bool.false_eq_true, if_false]
    rw [he]
    dsimp only
    cases hu : u (promptV3 (interpOpt (some q))) with
    | ok d =>
      dsimp only
      cases hc : d.candidates.head? with
      | some c =>
        dsimp only
        cases ht : c.text with
        | some t2 => rfl
        | none => rfl
      | none => rfl
    | httpError s m => rfl
    | noResponse => rfl
    | setupError m => rfl
  refine ⟨hv2 e₁ t₁ he₁, hv3 e₁ t₁ he₁,
    (hv2 e₁ t₁ he₁).trans (hv2 e₂ t₂ he₂).symm,
    (hv3 e₁ t₁ he₁).trans (hv3 e₂ t₂ he₂).symm, rfl, ?_⟩
  unfold truncatedTextV3 MAX_TEXT_LENGTH_V3
  rw [List.take_take]
  simp

/-- C1 witness: two extractors yielding different texts ("text" and the
empty text) produce identical service calls in variants 2 and 3, whose
prompts carry only the question; and the dead take-15000 facts at the
concrete text "text". -/
theorem c1_truncation_witness :
    (askV2 sampleExtractor sampleUpstream ⟨some ['a'], some "qq"⟩).2
      = [Call.extract, Call.upstream (promptV2 "qq")] ∧
    (askV3 sampleExtractor sampleUpstream ⟨some ['a'], some "qq"⟩).2
      = [Call.extract, Call.upstream (promptV3 "qq")] ∧
    (askV2 sampleExtractor sampleUpstream ⟨some ['a'], some "qq"⟩).2
      = (askV2 emptyExtractor sampleUpstream ⟨some ['a'], some "qq"⟩).2 ∧
    (askV3 sampleExtractor sampleUpstream ⟨some ['a'], some "qq"⟩).2
      = (askV3 emptyExtractor sampleUpstream ⟨some ['a'], some "qq"⟩).2 ∧
    truncatedTextV3 "text".data = "text".data.take 15000 ∧
    truncatedTextV3 (truncatedTextV3 "text".data) = truncatedTextV3 "text".data :=
  c1_truncation sampleExtractor emptyExtractor sampleUpstream ['a'] "text".data [] "qq"
    (by decide) rfl rfl

/-- C1 counterexample: a document whose extracted text is 8001 repetitions
of the character Z - its first 8000 characters are all Z - yields, in
variant 2, a service call whose prompt contains no Z at all: the prompt
embeds none of the document text, let alone exactly its first 8000
characters. -/
theorem c1_counterexample :
    (askV2 (fun _ => Except.ok (List.replicate 8001 'Z')) sampleUpstream
        ⟨some ['b'], some "q"⟩).2
      = [Call.extract, Call.upstream (promptV2 "q")] ∧
    ¬ ('Z' ∈ (promptV2 "q").data) := by
  refine ⟨rfl, by decide⟩

/-- C6 (amended): the health body has exactly the fields status and
message; a non-empty configured key yields the same constant 200 body
whatever the key is (so neither its value nor its length is included), and
an absent or empty key yields the constant 500 error body. -/
theorem c6_health (k k' : String) (hk : k ≠ "") (hk' : k' ≠ "") :
    healthHandler (some k) = healthHandler (some k') ∧
    healthHandler (some k)
      = (200, [("status", "ok"), ("message", "Server is running and API key is loaded")]) ∧
    healthHandler none
      = (500, [("status", "error"), ("message", "GEMINI_API_KEY is not set")]) ∧
    healthHandler (some "")
      = (500, [("status", "error"), ("message", "GEMINI_API_KEY is not set")]) := by
  unfold healthHandler
  simp [jsFalsy, hk, hk']

/-- C6 witness: the amended health facts at the concrete keys "a", "bb". -/
theorem c6_health_witness :
    healthHandler (some "a") = healthHandler (some "bb") ∧
    healthHandler (some "a")
      = (200, [("status", "ok"), ("message", "Server is running and API key is loaded")]) ∧
    healthHandler none
      = (500, [("status", "error"), ("message", "GEMINI_API_KEY is not set")]) ∧
    healthHandler (some "")
      = (500, [("status", "error"), ("message", "GEMINI_API_KEY is not set")]) :=
  c6_health "a" "bb" (by decide) (by decide)

/-- C6 counterexample: neither with nor without a configured key does the
health body carry an api_key_loaded field (nor, a fortiori, an
api_key_length field): its fields are status and message. -/
theorem c6_counterexample :
    ¬ ("api_key_loaded" ∈ (healthHandler (some "k")).2.map Prod.fst) ∧
    ¬ ("api_key_loaded" ∈ (healthHandler none).2.map Prod.fst) ∧
    (healthHandler (some "k")).2.map Prod.fst = ["status", "message"] := by
  refine ⟨by decide, by decide, by decide⟩

/-- C7: `/chat` with an absent or empty question responds 400 with the
validation error and makes no collaborator call, for every upstream. -/
theorem c7_chat_validation (u : Upstream) (q : Option String)
    (h : q = none ∨ q = some "") :
    chatHandler u q = (⟨400, RespBody.error "Question is required"⟩, []) := by
  rcases h with h | h <;> subst h <;> rfl

/-- C7 witness: the absent-question and empty-question cases at a concrete
upstream. -/
theorem c7_chat_validation_witness :
    chatHandler sampleUpstream none = (⟨400, RespBody.error "Question is required"⟩, []) ∧
    chatHandler sampleUpstream (some "")
      = (⟨400, RespBody.error "Question is required"⟩, []) :=
  ⟨c7_chat_validation sampleUpstream none (Or.inl rfl),
   c7_chat_validation sampleUpstream (some "") (Or.inr rfl)⟩

/-- C9: `/chat` validation is JavaScript truthiness only, so every
non-empty question — including a whitespace-only one — passes validation:
the generation service is called and the response is never a 400. -/
theorem c9_whitespace_question (u : Upstream) (q : String) (h : q ≠ "") :
    calledUpstream (chatHandler u (some q)).2 = true ∧
    (chatHandler u (some q)).1.status ≠ 400 := by
  have hf : jsFalsy (some q) = false := by simp [jsFalsy, h]
  unfold chatHandler
  rw [hf]
  simp only [Bool.false_eq_true, if_false]
  cases hu : u (chatPrompt (interpOpt (some q))) with
  | ok d =>
    dsimp only
    cases hc : d.candidates.head? with
    | some c =>
      dsimp only
      cases ht : c.text with
      | some t => exact ⟨rfl, by simp⟩
      | none => exact ⟨rfl, by simp⟩
    | none => exact ⟨rfl, by simp⟩
  | httpError s m => exact ⟨rfl, by simp⟩
  | noResponse => exact ⟨rfl, by simp⟩
  | setupError m => exact ⟨rfl, by simp⟩

/-- C9 witness: the whitespace-only question " " passes validation and the
service is called. -/
theorem c9_whitespace_question_witness :
    calledUpstream (chatHandler sampleUpstream (some " ")).2 = true ∧
    (chatHandler sampleUpstream (some " ")).1.status ≠ 400 :=
  c9_whitespace_question sampleUpstream " " (by decide)

/-- C8 (amended): none of the three axios request configurations of the
source sets any timeout — the `timeout` option is absent from each — so no
bounded duration is enforced by the application; a remote call that gets no
response is reported as a generic 500 error. -/
theorem c8_no_timeout (k q : String) (u : Upstream) (hq : q ≠ "")
    (hu : ∀ p, u p = UpstreamOutcome.noResponse) :
    chatAxiosConfig.timeout = none ∧
    (askV1AxiosConfig k).timeout = none ∧
    askV23AxiosConfig.timeout = none ∧
    (chatHandler u (some q)).1 = ⟨500, RespBody.error "Failed to get response from Gemini"⟩ := by
  refine ⟨rfl, rfl, rfl, ?_⟩
  have hf : jsFalsy (some q) = false := by simp [jsFalsy, hq]
  unfold chatHandler
  rw [hf]
  simp [hu]

/-- C8 witness: the amended facts at a concrete key, question and
no-response upstream. -/
theorem c8_no_timeout_witness :
    chatAxiosConfig.timeout = none ∧
    (askV1AxiosConfig "key").timeout = none ∧
    askV23AxiosConfig.timeout = none ∧
    (chatHandler downUpstream (some "q")).1
      = ⟨500, RespBody.error "Failed to get response from Gemini"⟩ :=
  c8_no_timeout "key" "q" downUpstream (by decide) (fun _ => rfl)

/-- C8 counterexample: no axios call of the source carries an explicit
timeout in the claimed 20-30 second range — `/chat`, the `/ask` of variant 1 and
the `/ask` of variants 2 and 3 all leave the timeout option unset. -/
theorem c8_counterexample :
    ¬ hasBoundedTimeout chatAxiosConfig ∧
    ¬ hasBoundedTimeout (askV1AxiosConfig "key") ∧
    ¬ hasBoundedTimeout askV23AxiosConfig := by
  refine ⟨?_, ?_, ?_⟩ <;> rintro ⟨t, ht, -⟩ <;>
    simp [chatAxiosConfig, askV1AxiosConfig, askV23AxiosConfig] at ht

/-- C2: a missing file, or a missing question, is rejected with 400 before
any collaborator call. This is the `/ask` behavior of both runnable
revisions (variants 2 and 3, which validate file then question); variant 1
is not loadable, and even its handler taken in isolation answers the
missing-file 400 and otherwise makes no extractor or service call
whatsoever (it fails at the undefined `pdfParse` first). -/
theorem c2_validation (e : Extractor) (u : Upstream) (buf : Text) (q : Option String) :
    askV2 e u ⟨none, q⟩ = (⟨400, RespBody.error "No PDF file uploaded."⟩, []) ∧
    askV3 e u ⟨none, q⟩ = (⟨400, RespBody.error "No PDF file uploaded."⟩, []) ∧
    askV2 e u ⟨some buf, none⟩ = (⟨400, RespBody.error "No question was provided."⟩, []) ∧
    askV3 e u ⟨some buf, none⟩ = (⟨400, RespBody.error "No question was provided."⟩, []) ∧
    askV1 ⟨none, q⟩ = (⟨400, RespBody.error "No PDF file uploaded."⟩, []) ∧
    (askV1 ⟨some buf, none⟩).2 = [] :=
  ⟨rfl, rfl, rfl, rfl, rfl, rfl⟩

/-- C3 (amended): in the runnable revisions a service response with no
candidates always fails with the generic 500 message and never yields a
success; and there is no distinct ContentBlocked error - an upstream
failure carrying safety-rating metadata receives the very same generic
body as a plain no-candidates response. (The safety classifier that would
produce a distinct message sits in variant 1, which is not loadable.) -/
theorem c3_no_candidates (e : Extractor) (u ub : Upstream) (buf t : Text) (q : String)
    (he : e buf = Except.ok t) (hq : q ≠ "")
    (hu : ∀ p, u p = UpstreamOutcome.ok ⟨[]⟩)
    (hub : ∀ p, ub p = UpstreamOutcome.httpError true none) :
    (askV2 e u ⟨some buf, some q⟩).1
      = ⟨500, RespBody.error "Failed to process the PDF or get an answer."⟩ ∧
    (askV3 e u ⟨some buf, some q⟩).1
      = ⟨500, RespBody.error "Failed to process the PDF or get an answer. Check server logs for details."⟩ ∧
    (askV2 e ub ⟨some buf, some q⟩).1 = (askV2 e u ⟨some buf, some q⟩).1 ∧
    (askV3 e ub ⟨some buf, some q⟩).1 = (askV3 e u ⟨some buf, some q⟩).1 := by
  have hf : jsFalsy (some q) = false := by simp [jsFalsy, hq]
  have h2 : (askV2 e u ⟨some buf, some q⟩).1
      = ⟨500, RespBody.error "Failed to process the PDF or get an answer."⟩ := by
    unfold askV2
    dsimp only
    rw [hf]
    simp only [Bool.false_eq_true, if_false]
    rw [he]
    dsimp only
    rw [hu]
    rfl
  have h2b : (askV2 e ub ⟨some buf, some q⟩).1
      = ⟨500, RespBody.error "Failed to process the PDF or get an answer."⟩ := by
    unfold askV2
    dsimp only
    rw [hf]
    simp only [Bool.false_eq_true, if_false]
    rw [he]
    dsimp only
    rw [hub]
  have h3 : (askV3 e u ⟨some buf, some q⟩).1
      = ⟨500, RespBody.error "Failed to process the PDF or get an answer. Check server logs for details."⟩ := by
    unfold askV3
    dsimp only
    rw [hf]
    simp only [Bool.false_eq_true, if_false]
    rw [he]
    dsimp only
    rw [hu]
    rfl
  have h3b : (askV3 e ub ⟨some buf, some q⟩).1
      = ⟨500, RespBody.error "Failed to process the PDF or get an answer. Check server logs for details."⟩ := by
    unfold askV3
    dsimp only
    rw [hf]
    simp only [Bool.false_eq_true, if_false]
    rw [he]
    dsimp only
    rw [hub]
  exact ⟨h2, h3, h2b.trans h2.symm, h3b.trans h3.symm⟩

/-- C3 witness: the amended facts at concrete collaborators (a 2xx
no-candidates upstream and a safety-blocked upstream). -/
theorem c3_no_candidates_witness :
    (askV2 sampleExtractor noCandidatesUpstream ⟨some ['b'], some "q"⟩).1
      = ⟨500, RespBody.error "Failed to process the PDF or get an answer."⟩ ∧
    (askV3 sampleExtractor noCandidatesUpstream ⟨some ['b'], some "q"⟩).1
      = ⟨500, RespBody.error "Failed to process the PDF or get an answer. Check server logs for details."⟩ ∧
    (askV2 sampleExtractor blockedUpstream ⟨some ['b'], some "q"⟩).1
      = (askV2 sampleExtractor noCandidatesUpstream ⟨some ['b'], some "q"⟩).1 ∧
    (askV3 sampleExtractor blockedUpstream ⟨some ['b'], some "q"⟩).1
      = (askV3 sampleExtractor noCandidatesUpstream ⟨some ['b'], some "q"⟩).1 :=
  c3_no_candidates sampleExtractor noCandidatesUpstream blockedUpstream ['b'] "text".data "q"
    rfl (by decide) (fun _ => rfl) (fun _ => rfl)

/-- C3 counterexample: there is no distinct ContentBlocked error - when the
service call fails carrying safety-rating metadata, variant 2 answers with
exactly the same generic body as when the service is simply unreachable,
so the claimed distinct safety error does not occur. -/
theorem c3_counterexample :
    (askV2 sampleExtractor blockedUpstream ⟨some ['c'], some "q2"⟩).1
      = ⟨500, RespBody.error "Failed to process the PDF or get an answer."⟩ ∧
    (askV2 sampleExtractor blockedUpstream ⟨some ['c'], some "q2"⟩).1
      = (askV2 sampleExtractor downUpstream ⟨some ['c'], some "q2"⟩).1 := by
  exact ⟨rfl, rfl⟩

/-- C4 (amended): no runnable revision rejects a document whose extracted
text is empty or whitespace-only - variants 2 and 3 have no such check and
call the remote service regardless (their prompts embed no document text
anyway); the empty-text check of lines 74-77 belongs to variant 1, which
is not loadable, and even in isolation that handler fails at the undefined
`pdfParse` before any check, calling no collaborator at all. -/
theorem c4_empty_text (e : Extractor) (u : Upstream) (buf t : Text) (q2 : String)
    (he : e buf = Except.ok t) (hw : isWsOnly t = true) (hq2 : q2 ≠ "") :
    calledUpstream (askV2 e u ⟨some buf, some q2⟩).2 = true ∧
    calledUpstream (askV3 e u ⟨some buf, some q2⟩).2 = true ∧
    askV1 ⟨some buf, some q2⟩
      = (⟨500, RespBody.error
            "Failed to process the PDF or get an answer. Details: pdfParse is not defined"⟩,
         []) := by
  have hf : jsFalsy (some q2) = false := by simp [jsFalsy, hq2]
  refine ⟨?_, ?_, rfl⟩
  · unfold askV2
    dsimp only
    rw [hf]
    simp only [Bool.false_eq_true, if_false]
    rw [he]
    dsimp only
    cases hu : u (promptV2 (interpOpt (some q2))) with
    | ok d =>
      dsimp only
      cases hc : d.candidates.head? with
      | some c =>
        dsimp only
        cases ht : c.text with
        | some t2 => rfl
        | none => rfl
      | none => rfl
    | httpError s m => rfl
    | noResponse => rfl
    | setupError m => rfl
  · unfold askV3
    dsimp only
    rw [hf]
    simp only [Bool.false_eq_true, if_false]
    rw [he]
    dsimp only
    cases hu : u (promptV3 (interpOpt (some q2))) with
    | ok d =>
      dsimp only
      cases hc : d.candidates.head? with
      | some c =>
        dsimp only
        cases ht : c.text with
        | some t2 => rfl
        | none => rfl
      | none => rfl
    | httpError s m => rfl
    | noResponse => rfl
    | setupError m => rfl

/-- C4 witness: the amended facts at an extractor producing whitespace-only
text. -/
theorem c4_empty_text_witness :
    calledUpstream (askV2 (fun _ => Except.ok [' ', '\n']) sampleUpstream
        ⟨some ['b'], some "q"⟩).2 = true ∧
    calledUpstream (askV3 (fun _ => Except.ok [' ', '\n']) sampleUpstream
        ⟨some ['b'], some "q"⟩).2 = true ∧
    askV1 ⟨some ['b'], some "q"⟩
      = (⟨500, RespBody.error
            "Failed to process the PDF or get an answer. Details: pdfParse is not defined"⟩,
         []) :=
  c4_empty_text (fun _ => Except.ok [' ', '\n']) sampleUpstream ['b'] [' ', '\n'] "q"
    rfl (by decide) (by decide)

/-- C4 counterexample: in variant 2 a document whose extracted text is
empty is not rejected — the remote service is called and, the service
answering normally, the request even ends 200. -/
theorem c4_counterexample :
    (askV2 emptyExtractor sampleUpstream ⟨some ['e'], some "q3"⟩).1.status = 200 ∧
    calledUpstream (askV2 emptyExtractor sampleUpstream ⟨some ['e'], some "q3"⟩).2 = true := by
  exact ⟨rfl, rfl⟩

/-- C10 (amended): the 200 fallback of line 117 is unreachable. Variant 1
is not loadable JavaScript (the stray block at lines 152-165 leaves
unmatched braces), and even its handler taken in isolation fails every
with-file request at the undefined `pdfParse` (line 71; the import at
line 5 binds `pdf`), answering 500 with the fixed Details body before
extraction or any service call - so no upstream response, with or without
candidates, can ever produce the fallback answer. -/
theorem c10_fallback_unreachable (req : AskRequest) (buf : Text) (h : req.file = some buf) :
    askV1 req
      = (⟨500, RespBody.error
            "Failed to process the PDF or get an answer. Details: pdfParse is not defined"⟩,
         []) ∧
    (askV1 req).1 ≠ ⟨200, RespBody.answer "No answer found."⟩ ∧
    calledUpstream (askV1 req).2 = false := by
  obtain ⟨f, qq⟩ := req
  dsimp only at h
  subst h
  refine ⟨rfl, ?_, rfl⟩
  intro hc
  simp [askV1, askV1Catch] at hc

/-- C10 witness: the facts at a concrete with-file request. -/
theorem c10_fallback_unreachable_witness :
    askV1 ⟨some ['g'], none⟩
      = (⟨500, RespBody.error
            "Failed to process the PDF or get an answer. Details: pdfParse is not defined"⟩,
         []) ∧
    (askV1 ⟨some ['g'], none⟩).1 ≠ ⟨200, RespBody.answer "No answer found."⟩ ∧
    calledUpstream (askV1 ⟨some ['g'], none⟩).2 = false :=
  c10_fallback_unreachable ⟨some ['g'], none⟩ ['g'] rfl

/-- C10 counterexample: a concrete with-file request to the variant-1
handler: the answer is the fixed 500 Details body with no collaborator
call - not a 200 with the fallback body; the service is never asked, so no
response of its could matter. -/
theorem c10_counterexample :
    askV1 ⟨some ['d'], some "q5"⟩
      = (⟨500, RespBody.error
            "Failed to process the PDF or get an answer. Details: pdfParse is not defined"⟩,
         []) ∧
    (askV1 ⟨some ['d'], some "q5"⟩).1.status ≠ 200 := by
  exact ⟨rfl, by decide⟩

/-- Helper for C5: the only error messages `/chat` ever puts in a body. -/
theorem chatHandler_error_msgs (u : Upstream) (q : Option String) (m : String) :
    (chatHandler u q).1.body = RespBody.error m →
    m = "Question is required" ∨ m = "Failed to get response from Gemini" := by
  unfold chatHandler
  cases hf : jsFalsy q with
  | true =>
    intro h
    simp at h
    exact Or.inl h.symm
  | false =>
    simp only [Bool.false_eq_true, if_false]
    cases hu : u (chatPrompt (interpOpt q)) with
    | ok d =>
      dsimp only
      cases hc : d.candidates.head? with
      | some c =>
        dsimp only
        cases ht : c.text with
        | some t => intro h; simp at h
        | none => intro h; simp at h; exact Or.inr h.symm
      | none => intro h; simp at h; exact Or.inr h.symm
    | httpError s mm => intro h; simp at h; exact Or.inr h.symm
    | noResponse => intro h; simp at h; exact Or.inr h.symm
    | setupError mm => intro h; simp at h; exact Or.inr h.symm

/-- Helper for C5: the only error messages the `/ask` of variant 2 ever puts in
a body — all three are fixed generic strings. -/
theorem askV2_error_msgs (e : Extractor) (u : Upstream) (req : AskRequest) (m : String) :
    (askV2 e u req).1.body = RespBody.error m →
    m = "No PDF file uploaded." ∨ m = "No question was provided." ∨
    m = "Failed to process the PDF or get an answer." := by
  obtain ⟨f, q⟩ := req
  cases f with
  | none => intro h; simp [askV2] at h; exact Or.inl h.symm
  | some buf =>
    unfold askV2
    dsimp only
    cases hf : jsFalsy q with
    | true => intro h; simp at h; exact Or.inr (Or.inl h.symm)
    | false =>
      simp only [Bool.false_eq_true, if_false]
      cases he : e buf with
      | error mm => intro h; simp at h; exact Or.inr (Or.inr h.symm)
      | ok text =>
        dsimp only
        cases hu : u (promptV2 (interpOpt q)) with
        | ok d =>
          dsimp only
          cases hc : d.candidates.head? with
          | some c =>
            dsimp only
            cases ht : c.text with
            | some t => intro h; simp at h
            | none => intro h; simp at h; exact Or.inr (Or.inr h.symm)
          | none => intro h; simp at h; exact Or.inr (Or.inr h.symm)
        | httpError s mm => intro h; simp at h; exact Or.inr (Or.inr h.symm)
        | noResponse => intro h; simp at h; exact Or.inr (Or.inr h.symm)
        | setupError mm => intro h; simp at h; exact Or.inr (Or.inr h.symm)

/-- Helper for C5: the only error messages the `/ask` of variant 3 ever puts in
a body — all three are fixed generic strings. -/
theorem askV3_error_msgs (e : Extractor) (u : Upstream) (req : AskRequest) (m : String) :
    (askV3 e u req).1.body = RespBody.error m →
    m = "No PDF file uploaded." ∨ m = "No question was provided." ∨
    m = "Failed to process the PDF or get an answer. Check server logs for details." := by
  obtain ⟨f, q⟩ := req
  cases f with
  | none => intro h; simp [askV3] at h; exact Or.inl h.symm
  | some buf =>
    unfold askV3
    dsimp only
    cases hf : jsFalsy q with
    | true => intro h; simp at h; exact Or.inr (Or.inl h.symm)
    | false =>
      simp only [Bool.false_eq_true, if_false]
      cases he : e buf with
      | error mm => intro h; simp at h; exact Or.inr (Or.inr h.symm)
      | ok text =>
        dsimp only
        cases hu : u (promptV3 (interpOpt q)) with
        | ok d =>
          dsimp only
          cases hc : d.candidates.head? with
          | some c =>
            dsimp only
            cases ht : c.text with
            | some t => intro h; simp at h
            | none => intro h; simp at h; exact Or.inr (Or.inr h.symm)
          | none => intro h; simp at h; exact Or.inr (Or.inr h.symm)
        | httpError s mm => intro h; simp at h; exact Or.inr (Or.inr h.symm)
        | noResponse => intro h; simp at h; exact Or.inr (Or.inr h.symm)
        | setupError mm => intro h; simp at h; exact Or.inr (Or.inr h.symm)

/-- Helper for C5: the only bodies the isolated variant-1 handler could put
in a body are two fixed constants - the missing-file message and the fixed
ReferenceError Details message. -/
theorem askV1_error_msgs (req : AskRequest) (m : String) :
    (askV1 req).1.body = RespBody.error m →
    m = "No PDF file uploaded." ∨
    m = "Failed to process the PDF or get an answer. Details: pdfParse is not defined" := by
  obtain ⟨f, q⟩ := req
  cases f with
  | none => intro h; simp [askV1] at h; exact Or.inl h.symm
  | some buf => intro h; simp [askV1, askV1Catch] at h; exact Or.inr h.symm

/-- C5: for every failing request the caller-visible body is one of a
fixed finite set of generic constant strings - independent of the
configured key and of any upstream or exception detail, so no secret, no
stack detail and no upstream error message is ever relayed. This covers
`/chat` and the `/ask` of both runnable revisions (variants 2 and 3);
even the isolated handler of the non-loadable variant 1 could only
produce two fixed constants. -/
theorem c5_error_bodies (e : Extractor) (u : Upstream) (req : AskRequest)
    (q : Option String) (mc m1 m2 m3 : String) :
    ((chatHandler u q).1.body = RespBody.error mc →
      mc = "Question is required" ∨ mc = "Failed to get response from Gemini") ∧
    ((askV2 e u req).1.body = RespBody.error m2 →
      m2 = "No PDF file uploaded." ∨ m2 = "No question was provided." ∨
      m2 = "Failed to process the PDF or get an answer.") ∧
    ((askV3 e u req).1.body = RespBody.error m3 →
      m3 = "No PDF file uploaded." ∨ m3 = "No question was provided." ∨
      m3 = "Failed to process the PDF or get an answer. Check server logs for details.") ∧
    ((askV1 req).1.body = RespBody.error m1 →
      m1 = "No PDF file uploaded." ∨
      m1 = "Failed to process the PDF or get an answer. Details: pdfParse is not defined") :=
  ⟨chatHandler_error_msgs u q mc, askV2_error_msgs e u req m2,
   askV3_error_msgs e u req m3, askV1_error_msgs req m1⟩
